import Mathlib

/-!
Shallow embedding of the ticket valuation / invoice / settlement engine of the
Truck-management repository.  The admin controller (updateTicket,
updateTicketStatus, getAllTickets, generateInvoice, downloadInvoice,
generateSettlement, updateBillRates) and the driver controller (createTicket)
are translated into pure functions over an explicit Store value standing for
the relational database.  Monetary amounts and quantities are modelled as
rationals; SQL DATE values are the YYYY-MM-DD strings the code passes around,
compared lexicographically (which on that format is chronological order).
-/

namespace TruckMgmt

/-- One row of the tickets table. -/
structure Ticket where
  id : Nat
  driver_id : Nat
  date : String
  truck_number : String
  equipment_type : String
  ticket_number : String
  customer : String
  quantity : ℚ
  bill_rate : ℚ
  pay_rate : ℚ
  total_bill : ℚ
  total_pay : ℚ
  status : String
  created_at : Nat
  updated_at : Nat
  deriving Repr, DecidableEq

/-- One row of the customers table. -/
structure Customer where
  id : Nat
  name : String
  default_bill_rate : ℚ
  deriving Repr, DecidableEq

/-- One row of the drivers table; default_pay_rate is a nullable column. -/
structure Driver where
  id : Nat
  name : String
  user_id_code : String
  default_pay_rate : Option ℚ
  deriving Repr, DecidableEq

/-- The relational store the controllers read and write. -/
structure Store where
  tickets : List Ticket
  customers : List Customer
  drivers : List Driver
  deriving Repr, DecidableEq

/-- HTTP-level failures the controllers return: badRequest is a 400 response
(validation or format failure), notFound a 404 response. -/
inductive ApiErr where
  | badRequest (msg : String)
  | notFound (msg : String)
  deriving Repr, DecidableEq

instance {ε α : Type} [DecidableEq ε] [DecidableEq α] : DecidableEq (Except ε α) :=
  fun a b =>
  match a, b with
  | .ok x, .ok y =>
    if h : x = y then .isTrue (by rw [h]) else .isFalse (by intro hh; cases hh; exact h rfl)
  | .error x, .error y =>
    if h : x = y then .isTrue (by rw [h]) else .isFalse (by intro hh; cases hh; exact h rfl)
  | .ok _, .error _ => .isFalse (by intro hh; cases hh)
  | .error _, .ok _ => .isFalse (by intro hh; cases hh)

/-- A ticket row as the admin list endpoint returns it: the ticket joined
(LEFT JOIN) with its driver row and with the customer row of the same name. -/
structure JoinedTicket where
  ticket : Ticket
  driver_name : Option String
  user_id_code : Option String
  customer_name : Option String
  deriving Repr, DecidableEq

/-- LEFT JOIN drivers d ON t.driver_id = d.id and
LEFT JOIN customers c ON t.customer = c.name, as in getAllTickets. -/
def joinAdmin (store : Store) (t : Ticket) : JoinedTicket :=
  let d := store.drivers.find? (fun d => d.id == t.driver_id)
  let c := store.customers.find? (fun c => c.name == t.customer)
  { ticket := t, driver_name := d.map Driver.name,
    user_id_code := d.map Driver.user_id_code, customer_name := c.map Customer.name }

/-- LEFT JOIN drivers only, as in generateInvoice and downloadInvoice. -/
def joinDriverOnly (store : Store) (t : Ticket) : JoinedTicket :=
  let d := store.drivers.find? (fun d => d.id == t.driver_id)
  { ticket := t, driver_name := d.map Driver.name,
    user_id_code := d.map Driver.user_id_code, customer_name := none }

/-- LEFT JOIN customers only, as in generateSettlement. -/
def joinCustomerOnly (store : Store) (t : Ticket) : JoinedTicket :=
  let c := store.customers.find? (fun c => c.name == t.customer)
  { ticket := t, driver_name := none, user_id_code := none,
    customer_name := c.map Customer.name }

/-! ### String and date helpers mirroring the JavaScript the code relies on.
They are written over List Char with structural recursion so that concrete
runs reduce inside the kernel. -/

/-- Split a character list at every occurrence of sep (the JavaScript
String.prototype.split with a one-character separator). -/
def splitChars (sep : Char) : List Char → List (List Char)
  | [] => [[]]
  | c :: cs =>
    let r := splitChars sep cs
    if c == sep then [] :: r
    else match r with
      | [] => [[c]]
      | g :: gs => (c :: g) :: gs

/-- JavaScript s.split(sep) for a one-character separator. -/
def jsSplit (sep : Char) (s : String) : List String :=
  (splitChars sep s.data).map String.mk

/-- JavaScript s.trim(): strip whitespace from both ends. -/
def jsTrim (s : String) : String :=
  String.mk (((s.data.dropWhile Char.isWhitespace).reverse.dropWhile
    Char.isWhitespace).reverse)

/-- Lower-case every character. -/
def lowerStr (s : String) : String :=
  String.mk (s.data.map Char.toLower)

/-- Join with a comma and space, as Array.prototype.join does in createTicket. -/
def joinComma : List String → String
  | [] => ""
  | [s] => s
  | s :: rest => s ++ ", " ++ joinComma rest

/-- Decimal value of the leading digit run of a character list; none when the
list does not start with a digit (the NaN result of parseInt). -/
def digitsVal (l : List Char) : Option Nat :=
  let ds := l.takeWhile Char.isDigit
  if ds.isEmpty then none
  else some (ds.foldl (fun a c => a * 10 + (c.toNat - 48)) 0)

/-- parseInt(s, 10): optional leading minus sign then leading digits;
none models the NaN result.  (The plus sign and leading whitespace that
parseInt also accepts never occur on the inputs the controllers build.) -/
def parseIntJs (s : String) : Option Int :=
  match s.data with
  | '-' :: rest => (digitsVal rest).map (fun n => -(n : Int))
  | l => (digitsVal l).map (fun n => (n : Int))

/-- MONTH() of a stored YYYY-MM-DD date value. -/
def dateMonth (d : String) : Int :=
  ((digitsVal ((d.data.drop 5).take 2)).getD 0 : Nat)

/-- YEAR() of a stored YYYY-MM-DD date value. -/
def dateYear (d : String) : Int :=
  ((digitsVal (d.data.take 4)).getD 0 : Nat)

/-- Strict lexicographic order on character lists by code point; this is how
the relational store compares two YYYY-MM-DD date values, and on that format
it is chronological order. -/
def charListLt : List Char → List Char → Bool
  | [], [] => false
  | [], _ :: _ => true
  | _ :: _, [] => false
  | a :: as, b :: bs => a.toNat < b.toNat || (a.toNat == b.toNat && charListLt as bs)

/-- Reflexive lexicographic order on character lists by code point. -/
def charListLe : List Char → List Char → Bool
  | [], _ => true
  | _ :: _, [] => false
  | a :: as, b :: bs =>
    if a.toNat < b.toNat then true
    else if a.toNat == b.toNat then charListLe as bs
    else false

/-- The strict string comparison of the store. -/
def strLt (a b : String) : Bool := charListLt a.data b.data

/-- The reflexive string comparison of the store. -/
def strLe (a b : String) : Bool := charListLe a.data b.data

/-- Does needle occur as a leading slice of hay? -/
def matchAt : List Char → List Char → Bool
  | [], _ => true
  | _ :: _, [] => false
  | a :: as, b :: bs => a == b && matchAt as bs

/-- Does needle occur anywhere inside hay? -/
def hasSubstr (needle : List Char) : List Char → Bool
  | [] => needle.isEmpty
  | b :: bs => matchAt needle (b :: bs) || hasSubstr needle bs

/-- t.ticket_number LIKE the wildcard-wrapped search term under the default
case-insensitive MySQL collation: substring match, ignoring case. -/
def likeMatch (pat hay : String) : Bool :=
  hasSubstr (lowerStr pat).data (lowerStr hay).data

/-- English month names, as the JavaScript Date parser understands them. -/
def monthNames : List String :=
  ["january", "february", "march", "april", "may", "june",
   "july", "august", "september", "october", "november", "december"]

/-- new Date(monthName + " 1, " + year) recognises a month word when it is a
case-insensitive whole-or-leading part, at least three letters long, of an
English month name; the result is the 1-based month number. -/
def monthFromName (w : String) : Option Nat :=
  let lw := (lowerStr w).data
  if lw.length < 3 then none
  else match monthNames.findIdx? (fun m => matchAt lw m.data) with
    | some i => some (i + 1)
    | none => none

/-- The month-token parsing block of getAllTickets: a YYYY-MM token or a
MonthName YYYY token yields a (month, year) pair when month lands in 1..12 and
both parsed numbers are truthy; every other token yields none. -/
def parsePeriod (month : String) : Option (Nat × Int) :=
  if month.data.contains '-' then
    match jsSplit '-' month with
    | [a, b] =>
      if a ≠ "" ∧ b ≠ "" then
        match parseIntJs a, parseIntJs b with
        | some yr, some mn =>
          if mn ≠ 0 ∧ yr ≠ 0 ∧ 1 ≤ mn ∧ mn ≤ 12 then some (mn.toNat, yr) else none
        | _, _ => none
      else none
    | _ => none
  else
    match jsSplit ' ' month with
    | [] => none
    | p :: ps =>
      if (p :: ps).length ≥ 2 ∧ p ≠ "" ∧ (p :: ps).getLast (by simp) ≠ "" then
        match monthFromName p, parseIntJs ((p :: ps).getLast (by simp)) with
        | some mn, some yr => if yr ≠ 0 then some (mn, yr) else none
        | _, _ => none
      else none

/-- The strict YYYY-MM-DD regular expression used by generateSettlement and
downloadInvoice. -/
def isValidDateStr (s : String) : Bool :=
  match s.data with
  | [a, b, c, d, '-', e, f, '-', g, h] =>
    a.isDigit && b.isDigit && c.isDigit && d.isDigit &&
    e.isDigit && f.isDigit && g.isDigit && h.isDigit
  | _ => false

/-! ### Orderings used by the ORDER BY clauses -/

/-- ORDER BY t.date DESC, t.created_at DESC. -/
def adminOrder (a b : JoinedTicket) : Prop :=
  strLt b.ticket.date a.ticket.date = true ∨
    (b.ticket.date = a.ticket.date ∧ b.ticket.created_at ≤ a.ticket.created_at)

instance : DecidableRel adminOrder := fun a b => by
  unfold adminOrder; infer_instance

/-- ORDER BY t.date ASC. -/
def dateAsc (a b : Ticket) : Prop := strLe a.date b.date = true

instance : DecidableRel dateAsc := fun a b => by
  unfold dateAsc; infer_instance

instance : IsTotal Ticket dateAsc := by
  constructor
  intro a b
  show charListLe a.date.data b.date.data = true ∨ charListLe b.date.data a.date.data = true
  generalize a.date.data = u
  generalize b.date.data = v
  induction u generalizing v with
  | nil => left; rfl
  | cons x xs ih =>
    cases v with
    | nil => right; rfl
    | cons y ys =>
      rcases Nat.lt_trichotomy x.toNat y.toNat with h | h | h
      · left; simp [charListLe, h]
      · rcases ih ys with h2 | h2
        · left; simp [charListLe, h, h2]
        · right; simp [charListLe, h.symm, h2]
      · right; simp [charListLe, h]

instance : IsTrans Ticket dateAsc := by
  constructor
  intro a b c
  show charListLe a.date.data b.date.data = true →
    charListLe b.date.data c.date.data = true →
    charListLe a.date.data c.date.data = true
  generalize a.date.data = u
  generalize b.date.data = v
  generalize c.date.data = w
  induction u generalizing v w with
  | nil => intro _ _; rfl
  | cons x xs ih =>
    intro hab hbc
    cases v with
    | nil => simp [charListLe] at hab
    | cons y ys =>
      cases w with
      | nil => simp [charListLe] at hbc
      | cons z zs =>
        simp only [charListLe] at hab hbc ⊢
        split at hab
        · rename_i hxy
          split at hbc
          · rename_i hyz
            simp [Nat.lt_trans hxy hyz]
          · split at hbc
            · rename_i hyz
              have hyz' : y.toNat = z.toNat := by simpa using hyz
              simp [hyz' ▸ hxy]
            · exact absurd hbc (by simp)
        · split at hab
          · rename_i hxy
            have hxy' : x.toNat = y.toNat := by simpa using hxy
            split at hbc
            · rename_i hyz
              simp [hxy' ▸ hyz]
            · split at hbc
              · rename_i hyz
                have hyz' : y.toNat = z.toNat := by simpa using hyz
                have hxz : x.toNat = z.toNat := hxy'.trans hyz'
                simp only [hxz, lt_self_iff_false, if_false, beq_self_eq_true, if_true]
                exact ih ys zs hab hbc
              · exact absurd hbc (by simp)
          · exact absurd hab (by simp)

/-! ### updateTicket and updateTicketStatus (admin controller) -/

/-- The request body of updateTicket: each field is present or absent;
absent is the JavaScript undefined. -/
structure TicketPatch where
  bill_rate : Option ℚ
  pay_rate : Option ℚ
  status : Option String
  quantity : Option ℚ
  deriving Repr, DecidableEq

/-- Which patch fields the code pushes into the UPDATE: bill_rate, pay_rate
and quantity when not undefined, status when truthy (present and non-empty). -/
def statusTruthy (s : Option String) : Bool :=
  match s with
  | some v => v ≠ ""
  | none => false

/-- updates.length is 0 exactly when no recognized field is present. -/
def patchRecognized (p : TicketPatch) : Bool :=
  p.bill_rate.isSome || p.pay_rate.isSome || statusTruthy p.status || p.quantity.isSome

/-- The row UPDATE issued by updateTicket on the rows whose id matches:
the patched fields are written, and total_bill and total_pay are always
rewritten from the final quantity and rates computed from the row the code
fetched first. -/
def applyTicketPatch (p : TicketPatch) (fq fb fp : ℚ) (now : Nat) (t : Ticket) : Ticket :=
  { t with
    quantity := p.quantity.getD t.quantity
    bill_rate := p.bill_rate.getD t.bill_rate
    pay_rate := p.pay_rate.getD t.pay_rate
    status := if statusTruthy p.status then p.status.getD t.status else t.status
    total_bill := fq * fb
    total_pay := fq * fp
    updated_at := now }

/-- updateTicket: rejects an empty patch, 404s when the ticket id is unknown,
otherwise recomputes totals from the union of patch and stored values and
issues one UPDATE. -/
def updateTicket (store : Store) (tid : Nat) (p : TicketPatch) (now : Nat) :
    Except ApiErr Unit × Store :=
  if patchRecognized p then
    match store.tickets.find? (fun t => t.id == tid) with
    | none => (.error (.notFound "Ticket not found"), store)
    | some cur =>
      let finalQty := p.quantity.getD cur.quantity
      let finalBillRate := p.bill_rate.getD cur.bill_rate
      let finalPayRate := p.pay_rate.getD cur.pay_rate
      (.ok (), { store with
        tickets := store.tickets.map (fun t =>
          if t.id == tid then applyTicketPatch p finalQty finalBillRate finalPayRate now t
          else t) })
  else (.error (.badRequest "No fields to update"), store)

/-- The statuses updateTicketStatus accepts. -/
def validStatuses : List String := ["Pending", "Approved", "Rejected"]

/-- updateTicketStatus: validates the status value, then issues an UPDATE on
the rows whose id matches; it never checks that such a row exists. -/
def updateTicketStatus (store : Store) (tid : Nat) (status : String) (now : Nat) :
    Except ApiErr Unit × Store :=
  if status ∈ validStatuses then
    (.ok (), { store with
      tickets := store.tickets.map (fun t =>
        if t.id == tid then { t with status := status, updated_at := now } else t) })
  else
    (.error (.badRequest "Valid status is required (Pending, Approved, or Rejected)"), store)

/-! ### getAllTickets (admin controller) -/

/-- getAllTickets: dynamic AND-combination of the optional filters, then
ORDER BY date DESC, created_at DESC.  A month token that does not parse to a
valid (month, year) pair adds no filter; the sentinel "All" and blank values
add no filter. -/
def getAllTickets (store : Store)
    (month customer driver status search : Option String) : List JoinedTicket :=
  let rows := store.tickets.map (joinAdmin store)
  let rows := match month with
    | some m =>
      if m ≠ "" ∧ jsTrim m ≠ "" then
        match parsePeriod m with
        | some (mn, yr) =>
          rows.filter (fun r => dateMonth r.ticket.date == (mn : Int) &&
            dateYear r.ticket.date == yr)
        | none => rows
      else rows
    | none => rows
  let rows := match customer with
    | some c => if c ≠ "" ∧ c ≠ "All" ∧ jsTrim c ≠ "" then
        rows.filter (fun r => r.ticket.customer == c)
      else rows
    | none => rows
  let rows := match driver with
    | some d => if d ≠ "" ∧ d ≠ "All" ∧ jsTrim d ≠ "" then
        rows.filter (fun r => r.driver_name == some d)
      else rows
    | none => rows
  let rows := match status with
    | some s => if s ≠ "" ∧ jsTrim s ≠ "" then
        rows.filter (fun r => r.ticket.status == s)
      else rows
    | none => rows
  let rows := match search with
    | some q => if q ≠ "" ∧ jsTrim q ≠ "" then
        rows.filter (fun r => likeMatch q r.ticket.ticket_number)
      else rows
    | none => rows
  List.insertionSort adminOrder rows

/-! ### generateInvoice, downloadInvoice, generateSettlement -/

/-- The invoice document the JSON endpoint returns (and the record the PDF
endpoint renders). -/
structure Invoice where
  customer : String
  startDate : String
  endDate : String
  tickets : List JoinedTicket
  subtotal : ℚ
  gst : ℚ
  total : ℚ
  deriving Repr, DecidableEq

/-- The WHERE clause of the invoice ticket query. -/
def invoicePred (name sd ed : String) (t : Ticket) : Bool :=
  t.customer == name && t.status == "Approved" && strLe sd t.date && strLe t.date ed

/-- generateInvoice: presence checks, customer lookup by id (404 when
unknown), then the Approved tickets of that customer name inside the inclusive
date range, ordered by date ascending; subtotal is their total_bill sum, GST
is 5 percent of it.  No date-format validation happens on this path. -/
def generateInvoice (store : Store) (customerId : Nat) (startDate endDate : String) :
    Except ApiErr Invoice :=
  if startDate = "" ∨ endDate = "" then
    .error (.badRequest "Customer ID, start date, and end date are required")
  else
    match store.customers.find? (fun c => c.id == customerId) with
    | none => .error (.notFound "Customer not found")
    | some cust =>
      let sorted := List.insertionSort dateAsc
        (store.tickets.filter (invoicePred cust.name startDate endDate))
      let rows := sorted.map (joinDriverOnly store)
      let subtotal := (rows.map (fun r => r.ticket.total_bill)).sum
      let gst := subtotal * (5 / 100)
      .ok { customer := cust.name, startDate := startDate, endDate := endDate,
            tickets := rows, subtotal := subtotal, gst := gst,
            total := subtotal + gst }

/-- downloadInvoice: same selection as generateInvoice but with a strict
YYYY-MM-DD format check on both dates before any storage access, and a 404
when no ticket matches (the PDF path refuses to render an empty invoice). -/
def downloadInvoice (store : Store) (customerId : Nat) (startDate endDate : String) :
    Except ApiErr Invoice :=
  if startDate = "" ∨ endDate = "" then
    .error (.badRequest "Customer ID, start date, and end date are required")
  else if ¬ (isValidDateStr startDate && isValidDateStr endDate) then
    .error (.badRequest "Dates must be in YYYY-MM-DD format")
  else
    match store.customers.find? (fun c => c.id == customerId) with
    | none => .error (.notFound "Customer not found")
    | some cust =>
      let sorted := List.insertionSort dateAsc
        (store.tickets.filter (invoicePred cust.name startDate endDate))
      if sorted.isEmpty then
        .error (.notFound "No approved tickets found for the selected date range")
      else
        let rows := sorted.map (joinDriverOnly store)
        let subtotal := (rows.map (fun r => r.ticket.total_bill)).sum
        let gst := subtotal * (5 / 100)
        .ok { customer := cust.name, startDate := startDate, endDate := endDate,
              tickets := rows, subtotal := subtotal, gst := gst,
              total := subtotal + gst }

/-- The settlement document. -/
structure Settlement where
  driverId : Nat
  driverName : String
  userIdCode : String
  startDate : String
  endDate : String
  tickets : List JoinedTicket
  totalPay : ℚ
  deriving Repr, DecidableEq

/-- The WHERE clause of the settlement ticket query: no status filter. -/
def settlementPred (did : Nat) (sd ed : String) (t : Ticket) : Bool :=
  t.driver_id == did && strLe sd t.date && strLe t.date ed

/-- generateSettlement: presence and strict YYYY-MM-DD checks on both dates
before any storage access, driver lookup by id (404 when unknown), then all
in-range tickets of that driver, any status, ordered by
date ascending; totalPay is their total_pay sum. -/
def generateSettlement (store : Store) (driverId : Nat) (startDate endDate : String) :
    Except ApiErr Settlement :=
  if startDate = "" then
    .error (.badRequest "Start date is required (format: YYYY-MM-DD)")
  else if endDate = "" then
    .error (.badRequest "End date is required (format: YYYY-MM-DD)")
  else if ¬ isValidDateStr startDate then
    .error (.badRequest "Start date must be in YYYY-MM-DD format")
  else if ¬ isValidDateStr endDate then
    .error (.badRequest "End date must be in YYYY-MM-DD format")
  else
    match store.drivers.find? (fun d => d.id == driverId) with
    | none => .error (.notFound "Driver not found")
    | some driver =>
      let sorted := List.insertionSort dateAsc
        (store.tickets.filter (settlementPred driverId startDate endDate))
      let rows := sorted.map (joinCustomerOnly store)
      .ok { driverId := driver.id, driverName := driver.name,
            userIdCode := driver.user_id_code,
            startDate := startDate, endDate := endDate, tickets := rows,
            totalPay := (rows.map (fun r => r.ticket.total_pay)).sum }

/-! ### updateBillRates (batch customer default-rate edit) -/

/-- One row of the batch body. -/
structure RateRow where
  id : Nat
  default_bill_rate : ℚ
  deriving Repr, DecidableEq

/-- One UPDATE customers SET default_bill_rate = ? WHERE id = ?: rows whose id
matches are rewritten; when no row matches the statement affects nothing and
raises no error. -/
def applyRateRow (cs : List Customer) (r : RateRow) : List Customer :=
  cs.map (fun c => if c.id == r.id then { c with default_bill_rate := r.default_bill_rate } else c)

/-- updateBillRates: the UPDATEs run sequentially inside one transaction that
commits when none of them raises a storage error; in this error-free model the
batch therefore always commits. -/
def updateBillRates (store : Store) (rates : List RateRow) :
    Except ApiErr Unit × Store :=
  (.ok (), { store with customers := rates.foldl applyRateRow store.customers })

/-! ### createTicket (driver controller, multi-customer version) -/

/-- customer.split(comma).map(trim).filter(nonempty). -/
def splitCustomerNames (raw : String) : List String :=
  ((jsSplit ',' raw).map jsTrim).filter (fun s => s.data.length > 0)

/-- createTicket: driver lookup, required-field truthiness checks, split of
the comma-separated customer string, mean of the default_bill_rate values of
the matching customer rows (0 when none match), driver default_pay_rate with
fallback 0, totals quantity times rate, insert with status Pending.  newId and
now stand for the storage-assigned id and NOW() timestamp. -/
def createTicket (store : Store) (driverId : Nat)
    (date truck_number customer equipment_type ticket_number : String)
    (quantity : ℚ) (newId now : Nat) : Except ApiErr Ticket × Store :=
  match store.drivers.find? (fun d => d.id == driverId) with
  | none => (.error (.notFound "Driver not found"), store)
  | some driver =>
    if date = "" ∨ truck_number = "" ∨ customer = "" ∨ equipment_type = "" ∨
        ticket_number = "" ∨ quantity = 0 then
      (.error (.badRequest
        "Date, truck number, customer, equipment type, ticket number, and quantity are required"),
       store)
    else
      let customerNames := splitCustomerNames customer
      if customerNames.isEmpty then
        (.error (.badRequest "At least one customer is required"), store)
      else
        let matched := store.customers.filter (fun c => customerNames.contains c.name)
        let billRate : ℚ :=
          if matched.length > 0 then
            (matched.map Customer.default_bill_rate).sum / (matched.length : ℚ)
          else 0
        let payRate : ℚ := driver.default_pay_rate.getD 0
        let t : Ticket :=
          { id := newId, driver_id := driver.id, date := date,
            truck_number := truck_number, equipment_type := equipment_type,
            ticket_number := ticket_number,
            customer := joinComma customerNames,
            quantity := quantity, bill_rate := billRate, pay_rate := payRate,
            total_bill := quantity * billRate, total_pay := quantity * payRate,
            status := "Pending", created_at := now, updated_at := now }
        (.ok t, { store with tickets := store.tickets ++ [t] })

/-- Is the result the ok constructor? -/
def exceptIsOk {ε α : Type} : Except ε α → Bool
  | .ok _ => true
  | .error _ => false

/-! ### Concrete fixtures used to exercise the operations -/

/-- A stored ticket used by several concrete runs. -/
def baseTicket : Ticket :=
  { id := 1, driver_id := 7, date := "2025-03-10", truck_number := "T1"
    equipment_type := "Dump", ticket_number := "TK100", customer := "Acme"
    quantity := 2, bill_rate := 10, pay_rate := 4, total_bill := 20, total_pay := 8
    status := "Pending", created_at := 5, updated_at := 5 }

/-- A store holding exactly one ticket. -/
def oneTicketStore : Store :=
  { tickets := [baseTicket], customers := [], drivers := [] }

/-- A store with one customer and no tickets. -/
def oneCustomerStore : Store :=
  { tickets := [], customers := [⟨1, "Acme", 100⟩], drivers := [] }

/-- Approved in-range ticket for the invoice fixture. -/
def invTicketA : Ticket :=
  { baseTicket with id := 11, date := "2025-03-20", ticket_number := "TK11"
                    status := "Approved", total_bill := 100 }

/-- A second approved in-range ticket dated earlier than invTicketA. -/
def invTicketB : Ticket :=
  { baseTicket with id := 12, date := "2025-03-05", ticket_number := "TK12"
                    status := "Approved", total_bill := 250 }

/-- A pending in-range ticket the invoice must skip. -/
def invTicketP : Ticket :=
  { baseTicket with id := 13, date := "2025-03-06", ticket_number := "TK13"
                    status := "Pending", total_bill := 40 }

/-- An approved ticket outside the requested range. -/
def invTicketOut : Ticket :=
  { baseTicket with id := 14, date := "2025-06-01", ticket_number := "TK14"
                    status := "Approved", total_bill := 70 }

/-- A rejected in-range ticket: settlements must include it, invoices not. -/
def setTicketR : Ticket :=
  { baseTicket with id := 15, date := "2025-03-07", ticket_number := "TK15"
                    status := "Rejected", total_pay := 30 }

/-- Invoice and settlement fixture: one customer, one driver, tickets of every
status in and out of the requested range. -/
def aggStore : Store :=
  { tickets := [invTicketA, invTicketB, invTicketP, invTicketOut, setTicketR]
    customers := [⟨1, "Acme", 100⟩]
    drivers := [⟨7, "Dan", "D7", some 25⟩] }

/-- Rate-resolution fixture: two known customers with rates 100 and 200. -/
def rateStore : Store :=
  { tickets := []
    customers := [⟨1, "A", 100⟩, ⟨2, "B", 200⟩]
    drivers := [⟨7, "Dan", "D7", some 25⟩] }

end TruckMgmt

/-! ## Theorems -/

namespace TruckMgmt

/-- Mapping a function that fixes every member of a list is the identity. -/
theorem list_map_id_of_mem {α : Type} (f : α → α) :
    ∀ l : List α, (∀ a ∈ l, f a = a) → l.map f = l := by
  intro l hl
  induction l with
  | nil => rfl
  | cons a as ih =>
    have ha : f a = a := hl a (List.mem_cons_self a as)
    have has : as.map f = as := ih (fun b hb => hl b (List.mem_cons_of_mem a hb))
    simp [ha, has]

/-- Claim C9: a ticket update whose patch contains none of the recognized
fields fails with a validation error and leaves the store untouched. -/
theorem c9_empty_patch (store : Store) (tid : Nat) (p : TicketPatch) (now : Nat)
    (h : patchRecognized p = false) :
    updateTicket store tid p now = (.error (.badRequest "No fields to update"), store) := by
  simp [updateTicket, h]

/-- Concrete run of c9_empty_patch on the empty patch. -/
theorem c9_empty_patch_witness :
    patchRecognized ⟨none, none, none, none⟩ = false ∧
      updateTicket oneTicketStore 1 ⟨none, none, none, none⟩ 9 =
        (.error (.badRequest "No fields to update"), oneTicketStore) :=
  ⟨by decide, c9_empty_patch oneTicketStore 1 ⟨none, none, none, none⟩ 9 (by decide)⟩

/-- Claim C10: with a valid status value and a ticket id matching no stored
ticket, the dedicated status-update operation reports success and changes
nothing; ticket existence is never checked on this path. -/
theorem c10_missing_ticket (store : Store) (tid : Nat) (s : String) (now : Nat)
    (hs : s ∈ validStatuses) (hid : ∀ t ∈ store.tickets, t.id ≠ tid) :
    updateTicketStatus store tid s now = (.ok (), store) := by
  have key : store.tickets.map
      (fun t => if t.id == tid then { t with status := s, updated_at := now } else t) =
      store.tickets := by
    apply list_map_id_of_mem
    intro t ht
    have : (t.id == tid) = false := by simpa using hid t ht
    simp [this]
  unfold updateTicketStatus
  rw [if_pos hs, key]

/-- Concrete run of c10_missing_ticket: id 99 matches no ticket. -/
theorem c10_missing_ticket_witness :
    "Approved" ∈ validStatuses ∧ (∀ t ∈ oneTicketStore.tickets, t.id ≠ 99) ∧
      updateTicketStatus oneTicketStore 99 "Approved" 9 = (.ok (), oneTicketStore) :=
  ⟨by decide, by decide,
    c10_missing_ticket oneTicketStore 99 "Approved" 9 (by decide) (by decide)⟩

/-- Claim C6 is false as stated: the general field-update operation performs
no status validation.  On a store holding ticket 1, patching status to the
value Bogus succeeds and stores Bogus. -/
theorem c6_status_cex :
    (updateTicket oneTicketStore 1 ⟨none, none, some "Bogus", none⟩ 9).1 = .ok () ∧
      ((updateTicket oneTicketStore 1 ⟨none, none, some "Bogus", none⟩ 9).2.tickets.map
        Ticket.status) = ["Bogus"] ∧
      "Bogus" ∉ validStatuses := by
  exact ⟨by decide, by decide, by decide⟩

/-- Claim C6 amended: only the dedicated status-update operation rejects a
status outside Pending, Approved, Rejected with a validation error and leaves
the store unchanged; the general field-update operation accepts any non-empty
status string and stores it as given. -/
theorem c6_status_amended :
    (∀ (store : Store) (tid : Nat) (s : String) (now : Nat), s ∉ validStatuses →
      updateTicketStatus store tid s now =
        (.error (.badRequest "Valid status is required (Pending, Approved, or Rejected)"),
         store)) ∧
    (∀ (store : Store) (tid : Nat) (p : TicketPatch) (cur : Ticket) (s : String) (now : Nat),
      p.status = some s → s ≠ "" →
      store.tickets.find? (fun t => t.id == tid) = some cur →
      (updateTicket store tid p now).1 = .ok () ∧
      ∀ t2 ∈ (updateTicket store tid p now).2.tickets, t2.id = tid → t2.status = s) := by
  constructor
  · intro store tid s now hs
    simp [updateTicketStatus, hs]
  · intro store tid p cur s now hps hs hfind
    have hrec : patchRecognized p = true := by
      simp [patchRecognized, statusTruthy, hps, hs]
    constructor
    · simp [updateTicket, hrec, hfind]
    · intro t2 ht2 htid
      simp only [updateTicket, hrec, if_true, hfind] at ht2
      obtain ⟨t, ht, rfl⟩ := List.mem_map.mp ht2
      by_cases hb : (t.id == tid) = true
      · simp [hb, applyTicketPatch, statusTruthy, hps, hs]
      · rw [if_neg (by simp [hb])] at htid ⊢
        exact absurd htid (by simpa using hb)

/-- Concrete runs of both halves of c6_status_amended. -/
theorem c6_status_amended_witness :
    ("Bogus" ∉ validStatuses) ∧
    updateTicketStatus oneTicketStore 5 "Bogus" 9 =
      (.error (.badRequest "Valid status is required (Pending, Approved, or Rejected)"),
       oneTicketStore) ∧
    ((updateTicket oneTicketStore 1 ⟨none, none, some "Odd", none⟩ 9).1 = .ok () ∧
      ∀ t2 ∈ (updateTicket oneTicketStore 1 ⟨none, none, some "Odd", none⟩ 9).2.tickets,
        t2.id = 1 → t2.status = "Odd") :=
  ⟨by decide, c6_status_amended.1 oneTicketStore 5 "Bogus" 9 (by decide),
    c6_status_amended.2 oneTicketStore 1 ⟨none, none, some "Odd", none⟩ baseTicket "Odd" 9
      rfl (by decide) rfl⟩

/-- Claim C7 is false as stated: a batch row naming the nonexistent customer
id 2 does not roll the batch back; the row for existing customer 1 is still
applied and committed. -/
theorem c7_batch_cex :
    (updateBillRates oneCustomerStore [⟨1, 50⟩, ⟨2, 70⟩]).1 = .ok () ∧
      (updateBillRates oneCustomerStore [⟨1, 50⟩, ⟨2, 70⟩]).2.customers ≠
        oneCustomerStore.customers ∧
      (∀ c ∈ oneCustomerStore.customers, c.id ≠ 2) := by
  exact ⟨by decide, by decide, by decide⟩

/-- Claim C7 amended: a batch row whose customer id matches no stored customer
is a silent no-op — the batch still succeeds, and removing such a row from the
batch gives the same final store; the remaining rows are applied, not rolled
back. -/
theorem c7_batch_amended (store : Store) (pre post : List RateRow) (r : RateRow)
    (h : ∀ c ∈ store.customers, c.id ≠ r.id) :
    updateBillRates store (pre ++ r :: post) = updateBillRates store (pre ++ post) := by
  have ids : ∀ (rs : List RateRow) (cs : List Customer),
      (∀ c ∈ cs, c.id ≠ r.id) → ∀ c2 ∈ rs.foldl applyRateRow cs, c2.id ≠ r.id := by
    intro rs
    induction rs with
    | nil => intro cs hcs c2 hc2; exact hcs c2 hc2
    | cons a as ih =>
      intro cs hcs c2 hc2
      rw [List.foldl_cons] at hc2
      refine ih (applyRateRow cs a) ?_ c2 hc2
      intro c hc
      obtain ⟨c0, hc0, rfl⟩ := List.mem_map.mp hc
      have := hcs c0 hc0
      split <;> simpa using this
  have skip : applyRateRow (pre.foldl applyRateRow store.customers) r =
      pre.foldl applyRateRow store.customers := by
    apply list_map_id_of_mem
    intro c hc
    have : (c.id == r.id) = false := by simpa using ids pre store.customers h c hc
    simp [this]
  simp only [updateBillRates, List.foldl_append, List.foldl_cons, skip]

/-- Concrete run of c7_batch_amended: dropping the unknown-id row changes
nothing. -/
theorem c7_batch_amended_witness :
    (∀ c ∈ oneCustomerStore.customers, c.id ≠ 2) ∧
      updateBillRates oneCustomerStore ([⟨1, 50⟩] ++ (⟨2, 70⟩ : RateRow) :: []) =
        updateBillRates oneCustomerStore ([⟨1, 50⟩] ++ []) :=
  ⟨by decide, c7_batch_amended oneCustomerStore [⟨1, 50⟩] [] ⟨2, 70⟩ (by decide)⟩


/-- Claim C8 is false as stated: the JSON invoice generation endpoint performs
no date-format validation — with the known customer id 1 and the non-matching
date strings garbage and junk it still succeeds against storage. -/
theorem c8_dateformat_cex :
    isValidDateStr "garbage" = false ∧ isValidDateStr "junk" = false ∧
      exceptIsOk (generateInvoice oneCustomerStore 1 "garbage" "junk") = true := by
  exact ⟨rfl, rfl, rfl⟩

/-- Claim C8 amended: settlement generation and the invoice PDF download
reject, before any storage access and for every store, dates that do not
match the strict YYYY-MM-DD pattern; the JSON invoice generation endpoint
checks only presence and proceeds to a successful result for any known
customer whatever the date strings look like. -/
theorem c8_dateformat_amended :
    (∀ (store : Store) (did : Nat) (sd ed : String), sd ≠ "" → ed ≠ "" →
      isValidDateStr sd = false →
      generateSettlement store did sd ed =
        .error (.badRequest "Start date must be in YYYY-MM-DD format")) ∧
    (∀ (store : Store) (did : Nat) (sd ed : String), ed ≠ "" →
      isValidDateStr sd = true → isValidDateStr ed = false →
      generateSettlement store did sd ed =
        .error (.badRequest "End date must be in YYYY-MM-DD format")) ∧
    (∀ (store : Store) (cid : Nat) (sd ed : String), sd ≠ "" → ed ≠ "" →
      (isValidDateStr sd && isValidDateStr ed) = false →
      downloadInvoice store cid sd ed =
        .error (.badRequest "Dates must be in YYYY-MM-DD format")) ∧
    (∀ (store : Store) (cid : Nat) (sd ed : String) (cust : Customer),
      sd ≠ "" → ed ≠ "" →
      store.customers.find? (fun c => c.id == cid) = some cust →
      exceptIsOk (generateInvoice store cid sd ed) = true) := by
  refine ⟨?_, ?_, ?_, ?_⟩
  · intro store did sd ed hsd hed hbad
    simp [generateSettlement, hsd, hed, hbad]
  · intro store did sd ed hed hok hbad
    have hsd : sd ≠ "" := by
      intro h
      rw [h] at hok
      exact absurd hok (by decide)
    simp [generateSettlement, hsd, hed, hok, hbad]
  · intro store cid sd ed hsd hed hbad
    simp [downloadInvoice, hsd, hed, hbad]
  · intro store cid sd ed cust hsd hed hfind
    simp [generateInvoice, hsd, hed, hfind, exceptIsOk]

/-- Concrete runs of all four parts of c8_dateformat_amended. -/
theorem c8_dateformat_amended_witness :
    generateSettlement oneCustomerStore 7 "bad" "2025-01-31" =
      .error (.badRequest "Start date must be in YYYY-MM-DD format") ∧
    generateSettlement oneCustomerStore 7 "2025-01-01" "bad" =
      .error (.badRequest "End date must be in YYYY-MM-DD format") ∧
    downloadInvoice oneCustomerStore 1 "bad" "2025-01-31" =
      .error (.badRequest "Dates must be in YYYY-MM-DD format") ∧
    exceptIsOk (generateInvoice oneCustomerStore 1 "bad" "worse") = true :=
  ⟨c8_dateformat_amended.1 oneCustomerStore 7 "bad" "2025-01-31"
      (by decide) (by decide) (by decide),
    c8_dateformat_amended.2.1 oneCustomerStore 7 "2025-01-01" "bad"
      (by decide) (by decide) (by decide),
    c8_dateformat_amended.2.2.1 oneCustomerStore 1 "bad" "2025-01-31"
      (by decide) (by decide) (by decide),
    c8_dateformat_amended.2.2.2 oneCustomerStore 1 "bad" "worse" ⟨1, "Acme", 100⟩
      (by decide) (by decide) rfl⟩

/-- Claim C5: on the same store and with the other filters held fixed, the
ticket query filters identically for the period tokens 2025-11 and
November 2025, and an unparseable period token such as garbage yields the
same result list as omitting the period filter entirely. -/
theorem c5_period_equivalence (store : Store)
    (customer driver status search : Option String) :
    getAllTickets store (some "2025-11") customer driver status search =
      getAllTickets store (some "November 2025") customer driver status search ∧
    getAllTickets store (some "garbage") customer driver status search =
      getAllTickets store none customer driver status search := by
  constructor <;> rfl


/-- Claim C1: for an existing ticket and a patch the code recognizes as
non-empty, the update succeeds and the stored row carries the final quantity
and rates (patch value when present, previous stored value otherwise) with
total_bill and total_pay recomputed as their products. -/
theorem c1_update_totals (store : Store) (tid : Nat) (p : TicketPatch) (now : Nat)
    (cur : Ticket)
    (hrec : patchRecognized p = true)
    (hfind : store.tickets.find? (fun t => t.id == tid) = some cur)
    (huniq : ∀ t ∈ store.tickets, t.id = tid → t = cur) :
    (updateTicket store tid p now).1 = .ok () ∧
    ∀ t2 ∈ (updateTicket store tid p now).2.tickets, t2.id = tid →
      t2.quantity = p.quantity.getD cur.quantity ∧
      t2.bill_rate = p.bill_rate.getD cur.bill_rate ∧
      t2.pay_rate = p.pay_rate.getD cur.pay_rate ∧
      t2.total_bill = p.quantity.getD cur.quantity * p.bill_rate.getD cur.bill_rate ∧
      t2.total_pay = p.quantity.getD cur.quantity * p.pay_rate.getD cur.pay_rate := by
  constructor
  · simp [updateTicket, hrec, hfind]
  · intro t2 ht2 htid
    simp only [updateTicket, hrec, if_true, hfind] at ht2
    obtain ⟨t, ht, rfl⟩ := List.mem_map.mp ht2
    by_cases hb : (t.id == tid) = true
    · have hcur : t = cur := huniq t ht (by simpa using hb)
      subst hcur
      simp [hb, applyTicketPatch]
    · rw [if_neg (by simp [hb])] at htid ⊢
      exact absurd htid (by simpa using hb)

/-- Concrete run of c1_update_totals: patch quantity 3 and bill_rate 12 onto
the stored ticket, leaving pay_rate to its stored value. -/
theorem c1_update_totals_witness :
    patchRecognized ⟨some 12, none, none, some 3⟩ = true ∧
    oneTicketStore.tickets.find? (fun t => t.id == 1) = some baseTicket ∧
    (∀ t ∈ oneTicketStore.tickets, t.id = 1 → t = baseTicket) ∧
    ((updateTicket oneTicketStore 1 ⟨some 12, none, none, some 3⟩ 9).1 = .ok () ∧
      ∀ t2 ∈ (updateTicket oneTicketStore 1 ⟨some 12, none, none, some 3⟩ 9).2.tickets,
        t2.id = 1 →
        t2.quantity = (some (3 : ℚ)).getD baseTicket.quantity ∧
        t2.bill_rate = (some (12 : ℚ)).getD baseTicket.bill_rate ∧
        t2.pay_rate = (none : Option ℚ).getD baseTicket.pay_rate ∧
        t2.total_bill =
          (some (3 : ℚ)).getD baseTicket.quantity * (some (12 : ℚ)).getD baseTicket.bill_rate ∧
        t2.total_pay =
          (some (3 : ℚ)).getD baseTicket.quantity * (none : Option ℚ).getD baseTicket.pay_rate) :=
  ⟨by decide, rfl, by decide,
    c1_update_totals oneTicketStore 1 ⟨some 12, none, none, some 3⟩ 9 baseTicket
      (by decide) rfl (by decide)⟩

/-- Claim C4: ticket creation with a non-empty split customer-name list prices
the ticket with the driver default pay rate (fallback 0) and with a bill rate
that is 0 when no name matches a known customer and otherwise the arithmetic
mean of the matching customer default bill rates. -/
theorem c4_rate_resolution (store : Store) (driverId : Nat)
    (date tnum cust eqty tkn : String) (qty : ℚ) (newId now : Nat) (drv : Driver)
    (hd : store.drivers.find? (fun d => d.id == driverId) = some drv)
    (hdate : date ≠ "") (htn : tnum ≠ "") (hcust : cust ≠ "") (heq : eqty ≠ "")
    (htkn : tkn ≠ "") (hqty : qty ≠ 0)
    (hnames : splitCustomerNames cust ≠ []) :
    ∃ t store2,
      createTicket store driverId date tnum cust eqty tkn qty newId now = (.ok t, store2) ∧
      t.pay_rate = drv.default_pay_rate.getD 0 ∧
      (store.customers.filter (fun c => (splitCustomerNames cust).contains c.name) = [] →
        t.bill_rate = 0) ∧
      (store.customers.filter (fun c => (splitCustomerNames cust).contains c.name) ≠ [] →
        t.bill_rate *
          ((store.customers.filter
              (fun c => (splitCustomerNames cust).contains c.name)).length : ℚ) =
          ((store.customers.filter
              (fun c => (splitCustomerNames cust).contains c.name)).map
            Customer.default_bill_rate).sum) ∧
      t.total_bill = qty * t.bill_rate ∧ t.total_pay = qty * t.pay_rate := by
  have hreq : ¬ (date = "" ∨ tnum = "" ∨ cust = "" ∨ eqty = "" ∨ tkn = "" ∨ qty = 0) := by
    simp [hdate, htn, hcust, heq, htkn, hqty]
  have hne : (splitCustomerNames cust).isEmpty = false := by
    cases h : splitCustomerNames cust with
    | nil => exact absurd h hnames
    | cons a as => rfl
  simp only [createTicket, hd, if_neg hreq, hne, Bool.false_eq_true, if_false]
  refine ⟨_, _, rfl, rfl, ?_, ?_, rfl, rfl⟩
  · intro hempty
    simp only [hempty]
    rfl
  · intro hnonempty
    have hlen : (store.customers.filter
        (fun c => (splitCustomerNames cust).contains c.name)).length ≠ 0 := by
      simpa [List.length_eq_zero] using hnonempty
    have hcast : ((store.customers.filter
        (fun c => (splitCustomerNames cust).contains c.name)).length : ℚ) ≠ 0 := by
      exact_mod_cast hlen
    have hpos : 0 < (store.customers.filter
        (fun c => (splitCustomerNames cust).contains c.name)).length :=
      Nat.pos_of_ne_zero hlen
    simp only [hpos, if_true]
    rw [div_mul_cancel₀ _ hcast]

/-- Concrete run of c4_rate_resolution: customers A at 100 and B at 200 both
match, so the stored bill rate times the match count 2 equals the rate sum
300 (mean 150, not sum 300), and the pay rate is the driver default 25. -/
theorem c4_rate_resolution_witness :
    rateStore.drivers.find? (fun d => d.id == 7) = some ⟨7, "Dan", "D7", some 25⟩ ∧
    splitCustomerNames "A, B" ≠ [] ∧
    (∃ t store2,
      createTicket rateStore 7 "2025-04-01" "T2" "A, B" "EQ" "N2" 3 2 9 = (.ok t, store2) ∧
      t.pay_rate = (some (25 : ℚ)).getD 0 ∧
      (rateStore.customers.filter (fun c => (splitCustomerNames "A, B").contains c.name) = [] →
        t.bill_rate = 0) ∧
      (rateStore.customers.filter (fun c => (splitCustomerNames "A, B").contains c.name) ≠ [] →
        t.bill_rate *
          ((rateStore.customers.filter
              (fun c => (splitCustomerNames "A, B").contains c.name)).length : ℚ) =
          ((rateStore.customers.filter
              (fun c => (splitCustomerNames "A, B").contains c.name)).map
            Customer.default_bill_rate).sum) ∧
      t.total_bill = 3 * t.bill_rate ∧ t.total_pay = 3 * t.pay_rate) :=
  ⟨rfl, by decide,
    c4_rate_resolution rateStore 7 "2025-04-01" "T2" "A, B" "EQ" "N2" 3 2 9
      ⟨7, "Dan", "D7", some 25⟩ rfl (by decide) (by decide) (by decide) (by decide)
      (by decide) (by decide) (by decide)⟩


/-- Claim C2: invoice generation 404s on an unknown customer id; on a known
customer it succeeds with exactly the Approved tickets of that customer name
inside the inclusive date range, ordered by date ascending, with subtotal the
sum of their total_bill values, gst five percent of the subtotal and total
their sum; an empty selection yields an empty list and zero totals. -/
theorem c2_invoice_spec (store : Store) (cid : Nat) (sd ed : String)
    (hsd : sd ≠ "") (hed : ed ≠ "") :
    (store.customers.find? (fun c => c.id == cid) = none →
      generateInvoice store cid sd ed = .error (.notFound "Customer not found")) ∧
    (∀ cust, store.customers.find? (fun c => c.id == cid) = some cust →
      ∃ inv, generateInvoice store cid sd ed = .ok inv ∧
        (inv.tickets.map JoinedTicket.ticket).Perm
          (store.tickets.filter (invoicePred cust.name sd ed)) ∧
        (inv.tickets.map (fun r => r.ticket.date)).Sorted (fun a b => strLe a b = true) ∧
        inv.subtotal =
          ((store.tickets.filter (invoicePred cust.name sd ed)).map Ticket.total_bill).sum ∧
        inv.gst = inv.subtotal * (5 / 100) ∧
        inv.total = inv.subtotal + inv.gst ∧
        (store.tickets.filter (invoicePred cust.name sd ed) = [] →
          inv.tickets = [] ∧ inv.subtotal = 0 ∧ inv.gst = 0 ∧ inv.total = 0)) := by
  have hpres : ¬ (sd = "" ∨ ed = "") := by simp [hsd, hed]
  constructor
  · intro hnone
    simp [generateInvoice, hpres, hnone]
  · intro cust hfind
    simp only [generateInvoice, if_neg hpres, hfind]
    refine ⟨_, rfl, ?_, ?_, ?_, rfl, rfl, ?_⟩
    · dsimp only
      rw [List.map_map]
      have hco : JoinedTicket.ticket ∘ joinDriverOnly store = id := rfl
      rw [hco, List.map_id]
      exact List.perm_insertionSort dateAsc _
    · dsimp only
      rw [List.map_map]
      have hco : (fun r : JoinedTicket => r.ticket.date) ∘ joinDriverOnly store =
          Ticket.date := rfl
      rw [hco]
      exact List.pairwise_map.mpr
        (List.sorted_insertionSort dateAsc
          (store.tickets.filter (invoicePred cust.name sd ed)))
    · dsimp only
      rw [List.map_map]
      have hco : (fun r : JoinedTicket => r.ticket.total_bill) ∘ joinDriverOnly store =
          Ticket.total_bill := rfl
      rw [hco]
      exact ((List.perm_insertionSort dateAsc _).map Ticket.total_bill).sum_eq
    · intro hempty
      simp only [hempty]
      refine ⟨rfl, rfl, ?_, ?_⟩
      · show (0 : ℚ) * (5 / 100) = 0
        exact zero_mul _
      · show (0 : ℚ) + 0 * (5 / 100) = 0
        rw [zero_mul, add_zero]

/-- Concrete run of c2_invoice_spec on the aggregation fixture: customer 1 is
known, so the invoice over March 2025 exists with the stated properties. -/
theorem c2_invoice_spec_witness :
    aggStore.customers.find? (fun c => c.id == 1) = some ⟨1, "Acme", 100⟩ ∧
    (∃ inv, generateInvoice aggStore 1 "2025-03-01" "2025-03-31" = .ok inv ∧
      (inv.tickets.map JoinedTicket.ticket).Perm
        (aggStore.tickets.filter (invoicePred (Customer.mk 1 "Acme" 100).name
          "2025-03-01" "2025-03-31")) ∧
      (inv.tickets.map (fun r => r.ticket.date)).Sorted (fun a b => strLe a b = true) ∧
      inv.subtotal =
        ((aggStore.tickets.filter (invoicePred (Customer.mk 1 "Acme" 100).name
          "2025-03-01" "2025-03-31")).map Ticket.total_bill).sum ∧
      inv.gst = inv.subtotal * (5 / 100) ∧
      inv.total = inv.subtotal + inv.gst ∧
      (aggStore.tickets.filter (invoicePred (Customer.mk 1 "Acme" 100).name
          "2025-03-01" "2025-03-31") = [] →
        inv.tickets = [] ∧ inv.subtotal = 0 ∧ inv.gst = 0 ∧ inv.total = 0)) :=
  ⟨rfl,
    (c2_invoice_spec aggStore 1 "2025-03-01" "2025-03-31" (by decide) (by decide)).2
      ⟨1, "Acme", 100⟩ rfl⟩

/-- Claim C3: settlement generation 404s on an unknown driver id; on a known
driver it succeeds with all in-range tickets of that driver inside the inclusive date
range regardless of status, ordered by date ascending, and totalPay the sum of
their total_pay values; every in-range ticket of the driver appears whatever
its status. -/
theorem c3_settlement_spec (store : Store) (did : Nat) (sd ed : String)
    (hsd : isValidDateStr sd = true) (hed : isValidDateStr ed = true) :
    (store.drivers.find? (fun d => d.id == did) = none →
      generateSettlement store did sd ed = .error (.notFound "Driver not found")) ∧
    (∀ drv, store.drivers.find? (fun d => d.id == did) = some drv →
      ∃ sett, generateSettlement store did sd ed = .ok sett ∧
        (sett.tickets.map JoinedTicket.ticket).Perm
          (store.tickets.filter (settlementPred did sd ed)) ∧
        (∀ t ∈ store.tickets, settlementPred did sd ed t = true →
          t ∈ sett.tickets.map JoinedTicket.ticket) ∧
        (sett.tickets.map (fun r => r.ticket.date)).Sorted (fun a b => strLe a b = true) ∧
        sett.totalPay =
          ((store.tickets.filter (settlementPred did sd ed)).map Ticket.total_pay).sum) := by
  have hsdne : sd ≠ "" := by
    intro h
    rw [h] at hsd
    exact absurd hsd (by decide)
  have hedne : ed ≠ "" := by
    intro h
    rw [h] at hed
    exact absurd hed (by decide)
  constructor
  · intro hnone
    simp [generateSettlement, hsdne, hedne, hsd, hed, hnone]
  · intro drv hfind
    simp only [generateSettlement, if_neg hsdne, if_neg hedne, hsd, hed,
      Bool.not_true, Bool.false_eq_true, if_false, hfind]
    have hperm : (((List.insertionSort dateAsc
        (store.tickets.filter (settlementPred did sd ed))).map
          (joinCustomerOnly store)).map JoinedTicket.ticket).Perm
        (store.tickets.filter (settlementPred did sd ed)) := by
      rw [List.map_map]
      have hco : JoinedTicket.ticket ∘ joinCustomerOnly store = id := rfl
      rw [hco, List.map_id]
      exact List.perm_insertionSort dateAsc _
    refine ⟨_, rfl, ?_, ?_, ?_, ?_⟩
    · exact hperm
    · intro t ht hpred
      exact hperm.mem_iff.mpr (List.mem_filter.mpr ⟨ht, hpred⟩)
    · dsimp only
      rw [List.map_map]
      have hco : (fun r : JoinedTicket => r.ticket.date) ∘ joinCustomerOnly store =
          Ticket.date := rfl
      rw [hco]
      exact List.pairwise_map.mpr
        (List.sorted_insertionSort dateAsc
          (store.tickets.filter (settlementPred did sd ed)))
    · dsimp only
      rw [List.map_map]
      have hco : (fun r : JoinedTicket => r.ticket.total_pay) ∘ joinCustomerOnly store =
          Ticket.total_pay := rfl
      rw [hco]
      exact ((List.perm_insertionSort dateAsc _).map Ticket.total_pay).sum_eq

/-- Concrete run of c3_settlement_spec on the aggregation fixture: driver 7 is
known; the March 2025 range holds a Pending, an Approved and a Rejected
ticket, all of which the settlement covers. -/
theorem c3_settlement_spec_witness :
    isValidDateStr "2025-03-01" = true ∧ isValidDateStr "2025-03-31" = true ∧
    aggStore.drivers.find? (fun d => d.id == 7) = some ⟨7, "Dan", "D7", some 25⟩ ∧
    (∃ sett, generateSettlement aggStore 7 "2025-03-01" "2025-03-31" = .ok sett ∧
      (sett.tickets.map JoinedTicket.ticket).Perm
        (aggStore.tickets.filter (settlementPred 7 "2025-03-01" "2025-03-31")) ∧
      (∀ t ∈ aggStore.tickets, settlementPred 7 "2025-03-01" "2025-03-31" t = true →
        t ∈ sett.tickets.map JoinedTicket.ticket) ∧
      (sett.tickets.map (fun r => r.ticket.date)).Sorted (fun a b => strLe a b = true) ∧
      sett.totalPay =
        ((aggStore.tickets.filter (settlementPred 7 "2025-03-01" "2025-03-31")).map
          Ticket.total_pay).sum) :=
  ⟨by decide, by decide, rfl,
    (c3_settlement_spec aggStore 7 "2025-03-01" "2025-03-31" (by decide) (by decide)).2
      ⟨7, "Dan", "D7", some 25⟩ rfl⟩

end TruckMgmt
